import Mathlib

/-!
Verification development for the agent_boilerplate_fullstack chat relay.

Part A embeds the frontend chat client:
`frontend/src/components/ChatInterface.tsx` (state, `addMessage`,
`handleSendMessage`, `clearChat`) and `frontend/src/services/api.ts`
(the axios response interceptor and `ChatAPI.sendMessage`).

Part B models the backend provider-orchestration layer (ConversationStore,
ProviderAdapter, ServiceManager, RateLimiter) from the specification, since
the Python backend sources are not part of this snapshot.

`uuidv4()` and `new Date()` are modelled by an explicit fresh `Nat` threaded
through the operations; a conversation identifier on the backend is an
opaque token modelled as `Nat`.
-/

/-- Message role, `"user" | "assistant"` in `types/chat.ts`. -/
inductive Role where
  | user
  | assistant
deriving DecidableEq, Repr

/-- Structure `ChatMessage` from `frontend/src/types/chat.ts`:
`{id: string; role; message: string; timestamp: Date}`.
The uuid `id` and the `timestamp` are modelled as `Nat` values drawn from a
fresh-value counter. -/
structure ChatMessage where
  msgId : Nat
  role : Role
  message : String
  timestamp : Nat
deriving DecidableEq, Repr

/-- Structure `ChatResponse` from `types/chat.ts`: `{response: string; conversation_id: string}`. -/
structure ChatResponse where
  response : String
  conversation_id : String
deriving DecidableEq, Repr

/-- Structure `ChatState` from `types/chat.ts`:
`{messages; conversationId: string | null; isLoading; error: string | null}`. -/
structure ChatState where
  messages : List ChatMessage
  conversationId : Option String
  isLoading : Bool
  error : Option String
deriving DecidableEq, Repr

/-- The initial state of `ChatInterface` (the `useState` initialiser). -/
def initialChatState : ChatState :=
  { messages := [], conversationId := none, isLoading := false, error := none }

/-- Function `addMessage` from `ChatInterface.tsx`: builds a new `ChatMessage` with a
fresh uuid and the current date and appends it to `prev.messages`.
`fresh` supplies the uuid/timestamp value. -/
def addMessage (fresh : Nat) (st : ChatState) (role : Role) (message : String) :
    ChatState :=
  let newMessage : ChatMessage :=
    { msgId := fresh, role := role, message := message, timestamp := fresh }
  { st with messages := st.messages ++ [newMessage] }

/-- JavaScript `a || b` on an optional string: an absent or empty string is
falsy and yields `b`. -/
def jsOrElse (a : Option String) (b : String) : String :=
  match a with
  | some s => if s = "" then b else s
  | none => b

/-- JavaScript `s || undefined` on `string | null`: `null` and `""` become
`undefined`. Used for `chatState.conversationId || undefined` when building
the request in `handleSendMessage`. -/
def jsOrUndefined (a : Option String) : Option String :=
  match a with
  | some s => if s = "" then none else some s
  | none => a

/-- The assistant-visible error text appended by the `catch` branch of
`handleSendMessage`. -/
def errorChatText (errorMessage : String) : String :=
  "Sorry, I encountered an error: " ++ errorMessage ++ ". Please try again."

/-- Function `handleSendMessage` from `ChatInterface.tsx`, with the awaited
`ChatAPI.sendMessage` call abstracted as its outcome `apiResult`
(`Except.ok` = resolved response, `Except.error` = thrown `Error` message).
Returns the final `ChatState` together with the `conversation_id` that the
request carried (`chatState.conversationId || undefined`).
`fresh` seeds the two uuid/timestamp draws. -/
def handleSendMessage (fresh : Nat) (st : ChatState) (message : String)
    (apiResult : Except String ChatResponse) : ChatState × Option String :=
  let st1 : ChatState := { st with error := none, isLoading := true }
  let st2 : ChatState := addMessage fresh st1 .user message
  let sentId : Option String := jsOrUndefined st.conversationId
  match apiResult with
  | .ok response =>
      let st3 : ChatState :=
        { st2 with conversationId := some response.conversation_id,
                   isLoading := false }
      (addMessage (fresh + 1) st3 .assistant response.response, sentId)
  | .error err =>
      let st3 : ChatState := { st2 with error := some err, isLoading := false }
      (addMessage (fresh + 1) st3 .assistant (errorChatText err), sentId)

/-- Function `clearChat` from `ChatInterface.tsx`: resets the whole state to the
initial value (empty messages, `conversationId: null`). -/
def clearChat (_st : ChatState) : ChatState :=
  initialChatState

/-- The error payload an axios failure may carry
(`error.response.data`, shaped like `ErrorResponse` of `types/chat.ts`:
`{error: string; detail?: string}`, either field possibly absent). -/
structure AxiosErrorData where
  error : Option String
  detail : Option String
deriving DecidableEq, Repr

/-- An axios error as seen by the response interceptor in `services/api.ts`:
`error.response?.data` (absent when no response body exists) and
`error.message`. -/
structure AxiosError where
  responseData : Option AxiosErrorData
  message : String
deriving DecidableEq, Repr

/-- The error transformation of the response interceptor in `services/api.ts`:
with a response body, `data.error || data.detail || "An error occurred"`;
otherwise `error.message || "Network error occurred"`. -/
def transformAxiosError (e : AxiosError) : String :=
  match e.responseData with
  | some data => jsOrElse data.error (jsOrElse data.detail "An error occurred")
  | none => if e.message = "" then "Network error occurred" else e.message

/-- Function `ChatAPI.sendMessage` from `services/api.ts`, with the axios POST
abstracted as its raw outcome. On success it returns `response.data`
unchanged; on failure the interceptor's transformed `Error` is rethrown
unchanged by the `catch` block. -/
def sendMessage (outcome : Except AxiosError ChatResponse) :
    Except String ChatResponse :=
  match outcome with
  | .ok response => .ok response
  | .error e => .error (transformAxiosError e)

/-- A client session event: a `handleSendMessage` call together with the
outcome of its API request, or a `clearChat` click. -/
inductive ClientEvent where
  | send (message : String) (apiResult : Except String ChatResponse)
  | clear
deriving Repr

/-- Run a client session from state `st`, threading the fresh-value counter
and collecting the `conversation_id` carried by each request, in order. -/
def runClient (fresh : Nat) (st : ChatState) :
    List ClientEvent → ChatState × List (Option String)
  | [] => (st, [])
  | ClientEvent.send message apiResult :: events =>
      let out := handleSendMessage fresh st message apiResult
      let rest := runClient (fresh + 2) out.1 events
      (rest.1, out.2 :: rest.2)
  | ClientEvent.clear :: events => runClient fresh (clearChat st) events

/-- The conversation-identifier discipline the client is supposed to follow:
each request carries the `conversation_id` of the most recent successful
response, `none` before the first response and again after a `clearChat`. -/
def specSentIds (cur : Option String) : List ClientEvent → List (Option String)
  | [] => []
  | ClientEvent.send _ (.ok response) :: events =>
      cur :: specSentIds (some response.conversation_id) events
  | ClientEvent.send _ (.error _) :: events => cur :: specSentIds cur events
  | ClientEvent.clear :: events => specSentIds none events

/-- Backend conversation message `{role, text, timestamp}` (spec data model). -/
structure BMessage where
  role : Role
  text : String
  timestamp : Nat
deriving DecidableEq, Repr

/-- Association-list lookup of a conversation's history by identifier. -/
def lookupConv : List (Nat × List BMessage) → Nat → Option (List BMessage)
  | [], _ => none
  | (k, h) :: rest, id => if k = id then some h else lookupConv rest id

/-- Modelled from the spec: the backend `ConversationStore`
(`backend/app/services`, not present in this snapshot) — conversation
history keyed by conversation identifier. Identifiers are opaque unique
tokens, modelled as `Nat` allocated from the `nextId` counter (the uuid4
generator). -/
structure ConversationStore where
  convs : List (Nat × List BMessage)
  nextId : Nat
deriving DecidableEq, Repr

/-- Well-formedness of the uuid generator: every identifier in the store was
allocated by a past value of the counter. -/
def ConversationStore.wf (store : ConversationStore) : Prop :=
  ∀ e ∈ store.convs, e.1 < store.nextId

/-- Modelled from the spec: `getOrCreate(id?)` — if `id` is absent or
unknown, allocates a new `ConversationId` and an empty history; otherwise
returns the existing history unmodified. -/
def getOrCreate (store : ConversationStore) (idOpt : Option Nat) :
    (Nat × List BMessage) × ConversationStore :=
  let freshConv : (Nat × List BMessage) × ConversationStore :=
    ((store.nextId, []),
     { convs := (store.nextId, []) :: store.convs, nextId := store.nextId + 1 })
  match idOpt with
  | some id =>
      match lookupConv store.convs id with
      | some history => ((id, history), store)
      | none => freshConv
  | none => freshConv

/-- Append a message to the entry for `id`, `none` when `id` is absent. -/
def appendToConvs : List (Nat × List BMessage) → Nat → BMessage →
    Option (List (Nat × List BMessage))
  | [], _, _ => none
  | (k, h) :: rest, id, msg =>
      if k = id then some ((k, h ++ [msg]) :: rest)
      else
        match appendToConvs rest id msg with
        | some rest' => some ((k, h) :: rest')
        | none => none

/-- Modelled from the spec: `append(id, message)` — adds the message to the
end of the conversation's sequence; fails with `NotFound` if `id` does not
exist. -/
def ConversationStore.append (store : ConversationStore) (id : Nat)
    (msg : BMessage) : Except Unit ConversationStore :=
  match appendToConvs store.convs id msg with
  | some convs' => .ok { store with convs := convs' }
  | none => .error ()

/-- Modelled from the spec: `clear(id)` — removes the conversation entirely;
an absent id is a no-op. -/
def ConversationStore.clear (store : ConversationStore) (id : Nat) :
    ConversationStore :=
  { store with convs := store.convs.filter (fun e => e.1 != id) }

/-- Modelled from the spec: `size()` — number of active conversations. -/
def ConversationStore.size (store : ConversationStore) : Nat :=
  store.convs.length

/-- The `ServiceName` enum of the spec data model. -/
inductive ServiceName where
  | openai
  | gemini
  | anthropic
  | dummy
deriving DecidableEq, Repr

/-- The `ProviderError` kinds of the spec error taxonomy. -/
inductive ProviderErrorKind where
  | authError
  | rateLimited
  | timeout
  | unavailable
  | malformed
deriving DecidableEq, Repr

/-- Record `ProviderError` with kind and detail, from the spec error taxonomy. -/
structure ProviderError where
  kind : ProviderErrorKind
  detail : String
deriving DecidableEq, Repr

/-- Modelled from the spec: the dummy/mock adapter's `processMessage`
(`backend/app/services/dummy_ai_service.py`, not present in this snapshot) —
deterministic, always succeeds, returns the echo-derived reply
`"Echo: " + newText` with zero external dependency. -/
def dummyProcessMessage (_history : List BMessage) (newText : String) : String :=
  "Echo: " ++ newText

/-- The opaque network behaviour of the real-vendor adapters: for each
vendor, given a history and a new message, a reply or a `ProviderError`. -/
def VendorAdapters : Type :=
  ServiceName → List BMessage → String → Except ProviderError String

/-- Dispatch `processMessage` by service name: `dummy` is the concrete echo
adapter, the vendors are the opaque network calls. -/
def callAdapter (adapters : VendorAdapters) (svc : ServiceName)
    (history : List BMessage) (message : String) : Except ProviderError String :=
  match svc with
  | .dummy => .ok (dummyProcessMessage history message)
  | _ => adapters svc history message

/-- Modelled from the spec: the `ServiceManager` state — the active service,
the configured fallback order, and which services have credentials
configured. -/
structure ServiceManager where
  activeService : ServiceName
  fallbackOrder : List ServiceName
  configured : ServiceName → Bool

/-- Candidate list construction: duplicates removed, first-seen order kept. -/
def dedupServices (services : List ServiceName) : List ServiceName :=
  services.foldl (fun acc s => if acc.contains s then acc else acc ++ [s]) []

/-- Modelled from the spec: the fallback loop of `handleChat` step 3 — skip
candidates without credentials (dummy is always available), return the first
successful reply, record failures, and report every attempt when all
candidates fail. -/
def tryServices (adapters : VendorAdapters) (configured : ServiceName → Bool)
    (history : List BMessage) (message : String) :
    List ServiceName → List (ServiceName × ProviderError) →
    Except (List (ServiceName × ProviderError)) (ServiceName × String)
  | [], attempts => .error attempts
  | svc :: rest, attempts =>
      if svc != ServiceName.dummy && !configured svc then
        tryServices adapters configured history message rest attempts
      else
        match callAdapter adapters svc history message with
        | .ok reply => .ok (svc, reply)
        | .error e =>
            tryServices adapters configured history message rest
              (attempts ++ [(svc, e)])

/-- Record `ChatResult` with reply, conversationId and usedService, from the spec. -/
structure ChatResult where
  reply : String
  conversationId : Nat
  usedService : ServiceName
deriving DecidableEq, Repr

/-- Failure cases of `handleChat`: all fallback candidates failed, or a
store `NotFound` (unreachable under the `getOrCreate` discipline). -/
inductive HandleChatError where
  | allServicesUnavailable (attempts : List (ServiceName × ProviderError))
  | storeNotFound
deriving DecidableEq, Repr

/-- Modelled from the spec: `handleChat(message, conversationId?)` — resolve
the conversation, try the deduplicated candidate list, and on the first
success append the user message then the assistant reply before returning
the result. `now` is the wall-clock timestamp of the request. -/
def handleChat (adapters : VendorAdapters) (mgr : ServiceManager)
    (store : ConversationStore) (message : String) (conversationId : Option Nat)
    (now : Nat) : Except HandleChatError (ChatResult × ConversationStore) :=
  let resolved := getOrCreate store conversationId
  let id := resolved.1.1
  let history := resolved.1.2
  let store1 := resolved.2
  match tryServices adapters mgr.configured history message
      (dedupServices (mgr.activeService :: mgr.fallbackOrder)) [] with
  | .ok result =>
      match store1.append id { role := .user, text := message, timestamp := now } with
      | .ok store2 =>
          match store2.append id
              { role := .assistant, text := result.2, timestamp := now } with
          | .ok store3 =>
              .ok ({ reply := result.2, conversationId := id,
                     usedService := result.1 }, store3)
          | .error _ => .error .storeNotFound
      | .error _ => .error .storeNotFound
  | .error attempts => .error (.allServicesUnavailable attempts)

/-- Modelled from the spec: the sliding-window `RateLimiter` — tracks request
timestamps within a window of `window` seconds and permits at most
`maxRequests` requests per window. -/
structure RateLimiter where
  maxRequests : Nat
  window : Nat
  timestamps : List Nat
deriving DecidableEq, Repr

/-- Modelled from the spec: `allow()` at time `now` — drop timestamps that
fell out of the sliding window, accept and record the request when fewer
than `maxRequests` remain, otherwise reject. -/
def RateLimiter.allow (rl : RateLimiter) (now : Nat) : Bool × RateLimiter :=
  let recent := rl.timestamps.filter (fun ts => now < ts + rl.window)
  if recent.length < rl.maxRequests then
    (true, { rl with timestamps := now :: recent })
  else
    (false, { rl with timestamps := recent })

/-- Run `allow` over a sequence of request times, collecting the verdicts. -/
def allowRun (rl : RateLimiter) : List Nat → List Bool × RateLimiter
  | [] => ([], rl)
  | t :: ts =>
      let out := rl.allow t
      let rest := allowRun out.2 ts
      (out.1 :: rest.1, rest.2)

/-- The spec's default fallback priority: openai, gemini, anthropic, dummy. -/
def defaultFallbackOrder : List ServiceName :=
  [ServiceName.openai, ServiceName.gemini, ServiceName.anthropic, ServiceName.dummy]

/-- A concrete vendor behaviour for exercising fallback: openai rejects the
credentials, gemini replies, anthropic is unavailable. -/
def demoAdapters : VendorAdapters := fun svc _history _message =>
  match svc with
  | .openai => .error { kind := .authError, detail := "bad key" }
  | .gemini => .ok "gemini reply"
  | _ => .error { kind := .unavailable, detail := "off" }

/-- A concrete credential configuration: openai and gemini configured. -/
def demoConfigured : ServiceName → Bool := fun svc =>
  svc == ServiceName.openai || svc == ServiceName.gemini

/-- A concrete credential configuration: no vendor configured. -/
def noneConfigured : ServiceName → Bool := fun _ => false

theorem handleSendMessage_error_messages (fresh : Nat) (st : ChatState)
    (message err : String) :
    (handleSendMessage fresh st message (Except.error err)).1.messages =
      st.messages ++
        [{ msgId := fresh, role := .user, message := message, timestamp := fresh },
         { msgId := fresh + 1, role := .assistant, message := errorChatText err,
           timestamp := fresh + 1 }] := by
  simp [handleSendMessage, addMessage]

theorem handleSendMessage_ok_messages (fresh : Nat) (st : ChatState)
    (message : String) (response : ChatResponse) :
    (handleSendMessage fresh st message (Except.ok response)).1.messages =
      st.messages ++
        [{ msgId := fresh, role := .user, message := message, timestamp := fresh },
         { msgId := fresh + 1, role := .assistant, message := response.response,
           timestamp := fresh + 1 }] := by
  simp [handleSendMessage, addMessage]

/-- Claim C1: The claim "for every chat request that fails, no assistant
message is appended" is false on the code: the `catch` branch of
`handleSendMessage` deliberately appends an assistant-roled error notice.
Concretely, a failing request from the initial state leaves exactly one
assistant message in the stored history, not zero. -/
theorem C1_counterexample :
    ¬ ((handleSendMessage 0 initialChatState "hi" (Except.error "boom")).1.messages.countP
        (fun m => m.role == Role.assistant) = 0) := by
  decide

/-- Claim C1, amended: For every chat request that fails, the user's message
remains recorded exactly once, and exactly one assistant message — the error
notice "Sorry, I encountered an error: …" — is appended after it. -/
theorem C1_failure_appends_error_notice (fresh : Nat) (st : ChatState)
    (message err : String) :
    (handleSendMessage fresh st message (Except.error err)).1.messages =
      st.messages ++
        [{ msgId := fresh, role := .user, message := message, timestamp := fresh },
         { msgId := fresh + 1, role := .assistant, message := errorChatText err,
           timestamp := fresh + 1 }] ∧
    ((handleSendMessage fresh st message (Except.error err)).1.messages.countP
        (fun m => m.role == Role.user && m.message == message)) =
      st.messages.countP (fun m => m.role == Role.user && m.message == message) + 1 := by
  constructor
  · simp [handleSendMessage, addMessage]
  · simp [handleSendMessage, addMessage, List.countP_append, errorChatText]

/-- Claim C2: The claim "the user's message is appended to the stored history
only after a provider has been chosen to respond successfully" is false on
the code: `handleSendMessage` appends the user message before awaiting the
API call, so a failed request — one in which no provider responded
successfully — still leaves the user message in the stored history. -/
theorem C2_counterexample :
    ((handleSendMessage 0 initialChatState "hi" (Except.error "boom")).1.messages.countP
        (fun m => m.role == Role.user) = 1) ∧
    (handleSendMessage 0 initialChatState "hi" (Except.error "boom")).1.error =
      some "boom" := by
  constructor
  · decide
  · rfl

/-- Claim C2, amended: The user's message is appended to the stored history
before the API call's outcome is known: whatever the outcome, the stored
history immediately extends the prior one with the user message at the next
position. -/
theorem C2_user_message_precedes_outcome (fresh : Nat) (st : ChatState)
    (message : String) (apiResult : Except String ChatResponse) :
    (handleSendMessage fresh st message apiResult).1.messages.take
        (st.messages.length + 1) =
      st.messages ++
        [{ msgId := fresh, role := .user, message := message, timestamp := fresh }] := by
  cases apiResult with
  | ok response =>
      rw [handleSendMessage_ok_messages]
      rw [show st.messages.length + 1 = st.messages.length + 1 from rfl]
      rw [List.take_append]
      rfl
  | error err =>
      rw [handleSendMessage_error_messages]
      rw [List.take_append]
      rfl

theorem runClient_ok_calls_length (calls : List (String × ChatResponse)) :
    ∀ (fresh : Nat) (st : ChatState),
      (runClient fresh st
          (calls.map (fun c => ClientEvent.send c.1 (Except.ok c.2)))).1.messages.length =
        st.messages.length + 2 * calls.length := by
  induction calls with
  | nil => intro fresh st; simp [runClient]
  | cons c rest ih =>
      intro fresh st
      simp only [List.map_cons, runClient]
      rw [ih]
      have hlen : (handleSendMessage fresh st c.1 (Except.ok c.2)).1.messages.length =
          st.messages.length + 2 := by
        rw [handleSendMessage_ok_messages]
        simp
      rw [hlen]
      simp [List.length_cons]
      ring

/-- Claim C3: Every successful chat call grows the stored message history by
exactly 2 — the user message followed by the assistant reply — and over any
sequence of successful calls the history length grows by exactly 2 per
call. -/
theorem C3_success_grows_history_by_two (fresh : Nat) (st : ChatState)
    (message : String) (response : ChatResponse) :
    ((handleSendMessage fresh st message (Except.ok response)).1.messages =
      st.messages ++
        [{ msgId := fresh, role := .user, message := message, timestamp := fresh },
         { msgId := fresh + 1, role := .assistant, message := response.response,
           timestamp := fresh + 1 }]) ∧
    (handleSendMessage fresh st message (Except.ok response)).1.messages.length =
      st.messages.length + 2 ∧
    ∀ (calls : List (String × ChatResponse)),
      (runClient fresh st
          (calls.map (fun c => ClientEvent.send c.1 (Except.ok c.2)))).1.messages.length =
        st.messages.length + 2 * calls.length := by
  refine ⟨handleSendMessage_ok_messages fresh st message response, ?_, ?_⟩
  · rw [handleSendMessage_ok_messages]; simp
  · intro calls; exact runClient_ok_calls_length calls fresh st

theorem lookupConv_filter_ne (convs : List (Nat × List BMessage)) (id : Nat) :
    lookupConv (convs.filter (fun e => e.1 != id)) id = none := by
  induction convs with
  | nil => rfl
  | cons e rest ih =>
      obtain ⟨k, hist⟩ := e
      by_cases hk : k = id
      · have hb : ((k, hist).1 != id) = false := by simp [hk]
        simp [List.filter_cons, hb, ih]
      · have hb : ((k, hist).1 != id) = true := by simp [hk]
        simp [List.filter_cons, hb, lookupConv, hk, ih]

theorem filter_ne_of_lookup_none (convs : List (Nat × List BMessage)) (id : Nat)
    (h : lookupConv convs id = none) : convs.filter (fun e => e.1 != id) = convs := by
  induction convs with
  | nil => rfl
  | cons e rest ih =>
      obtain ⟨k, hist⟩ := e
      by_cases hk : k = id
      · simp [lookupConv, hk] at h
      · simp only [lookupConv, if_neg hk] at h
        have hb : ((k, hist).1 != id) = true := by simp [hk]
        simp [List.filter_cons, hb, ih h]

/-- Claim C6: `clear` is idempotent: clearing twice equals clearing once, the
conversation is absent afterwards, clearing an absent id is a no-op, and the
frontend `clearChat` is likewise idempotent. -/
theorem C6_clear_idempotent (store : ConversationStore) (id : Nat) :
    (store.clear id).clear id = store.clear id ∧
    lookupConv (store.clear id).convs id = none ∧
    (lookupConv store.convs id = none → store.clear id = store) ∧
    (∀ st : ChatState, clearChat (clearChat st) = clearChat st) := by
  refine ⟨?_, ?_, ?_, fun st => rfl⟩
  · show ConversationStore.mk _ _ = ConversationStore.mk _ _
    rw [ConversationStore.mk.injEq]
    refine ⟨?_, rfl⟩
    exact filter_ne_of_lookup_none _ _ (lookupConv_filter_ne store.convs id)
  · exact lookupConv_filter_ne store.convs id
  · intro h
    show ConversationStore.mk _ _ = _
    rw [filter_ne_of_lookup_none _ _ h]

/-- Claim C6 witness: clearing a present id twice equals clearing it once, and
clearing an absent id is a no-op, on a concrete two-conversation store. -/
theorem C6_witness :
    (ConversationStore.clear
        (ConversationStore.clear ⟨[(0, []), (1, [])], 2⟩ 1) 1 =
      ConversationStore.clear ⟨[(0, []), (1, [])], 2⟩ 1) ∧
    ConversationStore.clear ⟨[(0, []), (1, [])], 2⟩ 7 = ⟨[(0, []), (1, [])], 2⟩ :=
  ⟨(C6_clear_idempotent ⟨[(0, []), (1, [])], 2⟩ 1).1,
   (C6_clear_idempotent ⟨[(0, []), (1, [])], 2⟩ 7).2.2.1 (by decide)⟩

theorem lookupConv_none_of_bound (convs : List (Nat × List BMessage)) (n : Nat)
    (h : ∀ e ∈ convs, e.1 < n) : lookupConv convs n = none := by
  induction convs with
  | nil => rfl
  | cons e rest ih =>
      obtain ⟨k, hist⟩ := e
      have hk : k ≠ n := Nat.ne_of_lt (h (k, hist) (by simp))
      simp only [lookupConv, if_neg hk]
      exact ih (fun x hx => h x (by simp [hx]))

/-- Claim C7: `getOrCreate` with no identifier allocates a fresh identifier
with an empty history, never reuses an identifier present in a well-formed
store, two successive fresh allocations differ, and `getOrCreate` with an
existing identifier returns the prior history unmodified, with no change to
the store. -/
theorem C7_getOrCreate_contract :
    (∀ store : ConversationStore,
        (getOrCreate store none).1.2 = [] ∧
        (getOrCreate store none).1.1 ≠
          (getOrCreate (getOrCreate store none).2 none).1.1) ∧
    (∀ store : ConversationStore, store.wf →
        lookupConv store.convs (getOrCreate store none).1.1 = none) ∧
    (∀ (store : ConversationStore) (id : Nat) (h : List BMessage),
        lookupConv store.convs id = some h →
        getOrCreate store (some id) = ((id, h), store)) := by
  refine ⟨fun store => ⟨rfl, ?_⟩, fun store hwf => ?_, fun store id h hl => ?_⟩
  · show store.nextId ≠ store.nextId + 1
    omega
  · exact lookupConv_none_of_bound store.convs store.nextId hwf
  · simp [getOrCreate, hl]

/-- Claim C7 witness: on a concrete one-conversation store, the fresh
identifier is unused and fetching the existing conversation returns its
history with the store untouched. -/
theorem C7_witness :
    lookupConv ([(0, [])] : List (Nat × List BMessage))
        (getOrCreate ⟨[(0, [])], 1⟩ none).1.1 = none ∧
    getOrCreate ⟨[(0, [])], 1⟩ (some 0) = ((0, []), ⟨[(0, [])], 1⟩) :=
  ⟨C7_getOrCreate_contract.2.1 ⟨[(0, [])], 1⟩ (by intro e he; simp at he; simp [he]),
   C7_getOrCreate_contract.2.2 ⟨[(0, [])], 1⟩ 0 [] rfl⟩

theorem appendToConvs_of_lookup (convs : List (Nat × List BMessage)) (id : Nat)
    (h : List BMessage) (msg : BMessage) (hl : lookupConv convs id = some h) :
    ∃ convs', appendToConvs convs id msg = some convs' ∧
      lookupConv convs' id = some (h ++ [msg]) := by
  induction convs with
  | nil => simp [lookupConv] at hl
  | cons e rest ih =>
      obtain ⟨k, hist⟩ := e
      by_cases hk : k = id
      · subst hk
        simp [lookupConv] at hl
        refine ⟨(k, hist ++ [msg]) :: rest, ?_, ?_⟩
        · simp [appendToConvs]
        · simp [lookupConv, hl]
      · simp only [lookupConv, if_neg hk] at hl
        obtain ⟨rest', ha, hr⟩ := ih hl
        refine ⟨(k, hist) :: rest', ?_, ?_⟩
        · simp [appendToConvs, hk, ha]
        · simp [lookupConv, hk, hr]

theorem getOrCreate_lookup (store : ConversationStore) (cid : Option Nat) :
    lookupConv (getOrCreate store cid).2.convs (getOrCreate store cid).1.1 =
      some (getOrCreate store cid).1.2 := by
  match cid with
  | none => simp [getOrCreate, lookupConv]
  | some id =>
      cases hl : lookupConv store.convs id with
      | none => simp [getOrCreate, hl, lookupConv]
      | some h => simp [getOrCreate, hl]

/-- Claim C4: With `activeService = openai`, openai configured but failing, and
gemini configured and succeeding, `handleChat` succeeds with
`usedService = gemini`, the conversation receives both the user message and
the reply, and the openai `ProviderError` does not propagate to the caller
(the result is a success, not an error). -/
theorem C4_fallback_openai_to_gemini (adapters : VendorAdapters)
    (cfg : ServiceName → Bool) (store : ConversationStore) (message : String)
    (cid : Option Nat) (now : Nat) (e : ProviderError) (reply : String)
    (hcfgO : cfg ServiceName.openai = true) (hcfgG : cfg ServiceName.gemini = true)
    (hO : adapters ServiceName.openai (getOrCreate store cid).1.2 message =
      Except.error e)
    (hG : adapters ServiceName.gemini (getOrCreate store cid).1.2 message =
      Except.ok reply) :
    ∃ store' : ConversationStore,
      handleChat adapters
          { activeService := ServiceName.openai,
            fallbackOrder := defaultFallbackOrder, configured := cfg }
          store message cid now =
        Except.ok ({ reply := reply,
                     conversationId := (getOrCreate store cid).1.1,
                     usedService := ServiceName.gemini }, store') ∧
      lookupConv store'.convs (getOrCreate store cid).1.1 =
        some ((getOrCreate store cid).1.2 ++
          [{ role := Role.user, text := message, timestamp := now },
           { role := Role.assistant, text := reply, timestamp := now }]) := by
  obtain ⟨convs1, ha1, hl1⟩ :=
    appendToConvs_of_lookup (getOrCreate store cid).2.convs (getOrCreate store cid).1.1
      (getOrCreate store cid).1.2 { role := Role.user, text := message, timestamp := now }
      (getOrCreate_lookup store cid)
  obtain ⟨convs2, ha2, hl2⟩ :=
    appendToConvs_of_lookup convs1 (getOrCreate store cid).1.1 _
      { role := Role.assistant, text := reply, timestamp := now } hl1
  have htry : tryServices adapters cfg (getOrCreate store cid).1.2 message
      (dedupServices (ServiceName.openai :: defaultFallbackOrder)) [] =
      Except.ok (ServiceName.gemini, reply) := by
    show tryServices adapters cfg _ _
      [ServiceName.openai, ServiceName.gemini, ServiceName.anthropic,
       ServiceName.dummy] [] = _
    simp [tryServices, callAdapter, hcfgO, hcfgG, hO, hG]
  refine ⟨{ convs := convs2, nextId := (getOrCreate store cid).2.nextId }, ?_, ?_⟩
  · simp only [handleChat, htry, ConversationStore.append, ha1, ha2]
  · rw [List.append_assoc] at hl2
    exact hl2

/-- Claim C4 witness: the concrete demo vendors (openai fails with an auth
error, gemini replies) fall back to gemini on a fresh store. -/
theorem C4_witness :
    ∃ store' : ConversationStore,
      handleChat demoAdapters
          { activeService := ServiceName.openai,
            fallbackOrder := defaultFallbackOrder, configured := demoConfigured }
          ⟨[], 0⟩ "Hello" none 3 =
        Except.ok ({ reply := "gemini reply", conversationId := 0,
                     usedService := ServiceName.gemini }, store') ∧
      lookupConv store'.convs 0 =
        some [{ role := Role.user, text := "Hello", timestamp := 3 },
              { role := Role.assistant, text := "gemini reply", timestamp := 3 }] :=
  C4_fallback_openai_to_gemini demoAdapters demoConfigured ⟨[], 0⟩ "Hello" none 3
    { kind := .authError, detail := "bad key" } "gemini reply" rfl rfl rfl rfl

/-- Claim C5: The dummy adapter's `processMessage` is deterministic (history
independent) and always succeeds with the echo reply `"Echo: " + newText`;
`handleChat("Hello", none)` with every vendor uncredentialed and dummy
active replies `"Echo: Hello"` under a newly allocated conversation
identifier that is unused in the (well-formed) store. -/
theorem C5_dummy_echo (adapters : VendorAdapters) (cfg : ServiceName → Bool)
    (store : ConversationStore) (now : Nat) (hwf : store.wf)
    (_hO : cfg ServiceName.openai = false) (_hG : cfg ServiceName.gemini = false)
    (_hA : cfg ServiceName.anthropic = false) :
    (∀ (h1 h2 : List BMessage) (t : String),
        dummyProcessMessage h1 t = "Echo: " ++ t ∧
        dummyProcessMessage h1 t = dummyProcessMessage h2 t) ∧
    lookupConv store.convs store.nextId = none ∧
    handleChat adapters
        { activeService := ServiceName.dummy,
          fallbackOrder := defaultFallbackOrder, configured := cfg }
        store "Hello" none now =
      Except.ok ({ reply := "Echo: Hello", conversationId := store.nextId,
                   usedService := ServiceName.dummy },
        { convs := (store.nextId,
            [{ role := Role.user, text := "Hello", timestamp := now },
             { role := Role.assistant, text := "Echo: Hello", timestamp := now }]) ::
            store.convs,
          nextId := store.nextId + 1 }) := by
  refine ⟨fun h1 h2 t => ⟨rfl, rfl⟩, lookupConv_none_of_bound _ _ hwf, ?_⟩
  simp [handleChat, getOrCreate, tryServices, callAdapter, dummyProcessMessage,
    ConversationStore.append, appendToConvs, dedupServices]

/-- Claim C5 witness: the end-to-end echo scenario on the empty store. -/
theorem C5_witness :
    handleChat demoAdapters
        { activeService := ServiceName.dummy,
          fallbackOrder := defaultFallbackOrder, configured := noneConfigured }
        ⟨[], 0⟩ "Hello" none 0 =
      Except.ok ({ reply := "Echo: Hello", conversationId := 0,
                   usedService := ServiceName.dummy },
        { convs := [(0,
            [{ role := Role.user, text := "Hello", timestamp := 0 },
             { role := Role.assistant, text := "Echo: Hello", timestamp := 0 }])],
          nextId := 1 }) :=
  (C5_dummy_echo demoAdapters noneConfigured ⟨[], 0⟩ 0
    (fun e he => absurd he (by simp)) rfl rfl rfl).2.2

theorem allowRun_count_bound (lo : Nat) (ts : List Nat) :
    ∀ rl : RateLimiter, (∀ x ∈ rl.timestamps, lo ≤ x) →
      (∀ t ∈ ts, lo ≤ t ∧ t < lo + rl.window) →
      List.count true (allowRun rl ts).1 ≤ rl.maxRequests - rl.timestamps.length := by
  induction ts with
  | nil => intro rl _ _; simp [allowRun]
  | cons t rest ih =>
      intro rl hstored hts
      have hfilter : rl.timestamps.filter (fun x => t < x + rl.window) = rl.timestamps := by
        apply List.filter_eq_self.mpr
        intro x hx
        have h1 := hstored x hx
        have h2 := (hts t (by simp)).2
        simp only [decide_eq_true_eq]
        omega
      simp only [allowRun, RateLimiter.allow, hfilter]
      by_cases hlt : rl.timestamps.length < rl.maxRequests
      · rw [if_pos hlt]
        have hih := ih { rl with timestamps := t :: rl.timestamps }
          (by
            intro x hx
            rcases List.mem_cons.mp hx with h | h
            · exact h ▸ (hts t (by simp)).1
            · exact hstored x h)
          (fun t2 ht2 => hts t2 (by simp [ht2]))
        simp [List.count_cons] at hih ⊢
        omega
      · rw [if_neg hlt]
        have hih := ih { rl with timestamps := rl.timestamps } hstored
          (fun t2 ht2 => hts t2 (by simp [ht2]))
        simp [List.count_cons] at hih ⊢
        omega

/-- Claim C8: With `N = 2` and `W = 60`, three `allow()` calls whose
timestamps fall within the same 60-second window return
`true, true, false`; and in general, starting from a fresh limiter, any
sequence of calls whose timestamps all fall within one window of width `W`
is permitted at most `N` times. -/
theorem C8_rate_limiter_window :
    (∀ t1 t2 t3 : Nat, t1 ≤ t2 → t2 ≤ t3 → t3 < t1 + 60 →
        (allowRun { maxRequests := 2, window := 60, timestamps := [] }
          [t1, t2, t3]).1 = [true, true, false]) ∧
    (∀ (n w lo : Nat) (ts : List Nat), (∀ t ∈ ts, lo ≤ t ∧ t < lo + w) →
        List.count true
          (allowRun { maxRequests := n, window := w, timestamps := [] } ts).1 ≤ n) := by
  constructor
  · intro t1 t2 t3 h12 h23 h31
    have h21 : t2 < t1 + 60 := by omega
    have h32 : t3 < t2 + 60 := by omega
    simp [allowRun, RateLimiter.allow, List.filter, h21, h31, h32]
  · intro n w lo ts hts
    have := allowRun_count_bound lo ts
      { maxRequests := n, window := w, timestamps := [] }
      (by intro x hx; simp at hx) hts
    simpa using this

/-- Claim C8 witness: the boundary scenario at concrete times 3, 10, 59, and
the general bound instantiated on the same run. -/
theorem C8_witness :
    ((allowRun { maxRequests := 2, window := 60, timestamps := [] }
        [3, 10, 59]).1 = [true, true, false]) ∧
    List.count true
      (allowRun { maxRequests := 2, window := 60, timestamps := [] }
        [3, 10, 59]).1 ≤ 2 :=
  ⟨C8_rate_limiter_window.1 3 10 59 (by decide) (by decide) (by decide),
   C8_rate_limiter_window.2 2 60 3 [3, 10, 59] (by decide)⟩

/-- Claim C9: The claim that the thrown message is "Network error occurred"
whenever no response body exists is false on the code: with no response
body, the interceptor throws `error.message || "Network error occurred"`,
so a nonempty underlying message (here an axios timeout) is thrown verbatim. -/
theorem C9_counterexample :
    sendMessage (Except.error
        { responseData := none, message := "timeout of 30000ms exceeded" }) =
      Except.error "timeout of 30000ms exceeded" ∧
    "timeout of 30000ms exceeded" ≠ "Network error occurred" := by
  exact ⟨rfl, by decide⟩

/-- Claim C9, amended: `ChatAPI.sendMessage` never resolves with an error
body: on success it returns exactly the `{response, conversation_id}`
payload; on failure it throws an `Error` whose message is the response
body's `error` field if nonempty, else its `detail` field if nonempty, else
"An error occurred"; and when no response body exists, the underlying
error's own message if nonempty, else "Network error occurred". -/
theorem C9_sendMessage_error_contract :
    (∀ r : ChatResponse, sendMessage (Except.ok r) = Except.ok r) ∧
    (∀ (data : AxiosErrorData) (m s : String), data.error = some s → s ≠ "" →
        sendMessage (Except.error { responseData := some data, message := m }) =
          Except.error s) ∧
    (∀ (data : AxiosErrorData) (m s : String),
        (data.error = none ∨ data.error = some "") →
        data.detail = some s → s ≠ "" →
        sendMessage (Except.error { responseData := some data, message := m }) =
          Except.error s) ∧
    (∀ (data : AxiosErrorData) (m : String),
        (data.error = none ∨ data.error = some "") →
        (data.detail = none ∨ data.detail = some "") →
        sendMessage (Except.error { responseData := some data, message := m }) =
          Except.error "An error occurred") ∧
    (∀ m : String, m ≠ "" →
        sendMessage (Except.error { responseData := none, message := m }) =
          Except.error m) ∧
    sendMessage (Except.error { responseData := none, message := "" }) =
      Except.error "Network error occurred" := by
  refine ⟨fun r => rfl, ?_, ?_, ?_, ?_, rfl⟩
  · intro data m s hs hne
    simp [sendMessage, transformAxiosError, jsOrElse, hs, hne]
  · intro data m s herr hd hne
    rcases herr with h | h <;>
      simp [sendMessage, transformAxiosError, jsOrElse, h, hd, hne]
  · intro data m herr hdet
    rcases herr with h | h <;> rcases hdet with h2 | h2 <;>
      simp [sendMessage, transformAxiosError, jsOrElse, h, h2]
  · intro m hm
    simp [sendMessage, transformAxiosError, hm]

/-- Claim C9 witness: the contract evaluated at one concrete input per case. -/
theorem C9_witness :
    sendMessage (Except.ok { response := "ok", conversation_id := "c1" }) =
      Except.ok { response := "ok", conversation_id := "c1" } ∧
    sendMessage (Except.error
        { responseData := some { error := some "boom", detail := some "d" },
          message := "m" }) = Except.error "boom" ∧
    sendMessage (Except.error
        { responseData := some { error := none, detail := some "deep" },
          message := "m" }) = Except.error "deep" ∧
    sendMessage (Except.error
        { responseData := some { error := some "", detail := none },
          message := "m" }) = Except.error "An error occurred" ∧
    sendMessage (Except.error { responseData := none, message := "oops" }) =
      Except.error "oops" :=
  ⟨C9_sendMessage_error_contract.1 { response := "ok", conversation_id := "c1" },
   C9_sendMessage_error_contract.2.1 { error := some "boom", detail := some "d" }
     "m" "boom" rfl (by decide),
   C9_sendMessage_error_contract.2.2.1 { error := none, detail := some "deep" }
     "m" "deep" (Or.inl rfl) rfl (by decide),
   C9_sendMessage_error_contract.2.2.2.1 { error := some "", detail := none }
     "m" (Or.inr rfl) (Or.inl rfl),
   C9_sendMessage_error_contract.2.2.2.2.1 "oops" (by decide)⟩

theorem runClient_sentIds (events : List ClientEvent) :
    ∀ (fresh : Nat) (st : ChatState), st.conversationId ≠ some "" →
      (∀ (m : String) (r : ChatResponse),
          ClientEvent.send m (Except.ok r) ∈ events → r.conversation_id ≠ "") →
      (runClient fresh st events).2 = specSentIds st.conversationId events := by
  induction events with
  | nil => intro fresh st _ _; rfl
  | cons ev rest ih =>
      intro fresh st hne hids
      have hsent : ∀ res, (handleSendMessage fresh st "x" res).2 = st.conversationId := by
        intro res
        cases hcid : st.conversationId with
        | none => cases res <;> simp [handleSendMessage, jsOrUndefined, hcid]
        | some s =>
            have hs : ¬ s = "" := fun h => hne (by rw [hcid, h])
            cases res <;> simp [handleSendMessage, jsOrUndefined, hcid, hs]
      cases ev with
      | send m res =>
          cases res with
          | ok r =>
              have hr : r.conversation_id ≠ "" :=
                hids m r (List.mem_cons_self _ _)
              have hstate :
                  (handleSendMessage fresh st m (Except.ok r)).1.conversationId =
                    some r.conversation_id := by
                simp [handleSendMessage, addMessage]
              have htail := ih (fresh + 2) (handleSendMessage fresh st m (Except.ok r)).1
                (by rw [hstate]; intro h; exact hr (Option.some.inj h))
                (fun m2 r2 hm => hids m2 r2 (List.mem_cons_of_mem _ hm))
              rw [hstate] at htail
              have hsent2 : (handleSendMessage fresh st m (Except.ok r)).2 =
                  st.conversationId := by
                cases hcid : st.conversationId with
                | none => simp [handleSendMessage, jsOrUndefined, hcid]
                | some s =>
                    have hs : ¬ s = "" := fun h => hne (by rw [hcid, h])
                    simp [handleSendMessage, jsOrUndefined, hcid, hs]
              simp only [runClient, specSentIds]
              rw [hsent2, htail]
          | error err =>
              have hstate :
                  (handleSendMessage fresh st m (Except.error err)).1.conversationId =
                    st.conversationId := by
                simp [handleSendMessage, addMessage]
              have htail := ih (fresh + 2) (handleSendMessage fresh st m (Except.error err)).1
                (by rw [hstate]; exact hne)
                (fun m2 r2 hm => hids m2 r2 (List.mem_cons_of_mem _ hm))
              rw [hstate] at htail
              have hsent2 : (handleSendMessage fresh st m (Except.error err)).2 =
                  st.conversationId := by
                cases hcid : st.conversationId with
                | none => simp [handleSendMessage, jsOrUndefined, hcid]
                | some s =>
                    have hs : ¬ s = "" := fun h => hne (by rw [hcid, h])
                    simp [handleSendMessage, jsOrUndefined, hcid, hs]
              simp only [runClient, specSentIds]
              rw [hsent2, htail]
      | clear =>
          simp only [runClient, specSentIds]
          exact ih fresh (clearChat st) (by simp [clearChat, initialChatState])
            (fun m2 r2 hm => hids m2 r2 (List.mem_cons_of_mem _ hm))

/-- Claim C10: The client's conversation-identifier discipline: starting a
session in the initial state, the first request carries no conversation
identifier, every later request carries the identifier of the most recent
successful response (identifiers are uuid strings, hence nonempty), and
`clearChat` resets the stored identifier to `null` so the next request
starts a new conversation. -/
theorem C10_conversation_id_discipline (events : List ClientEvent) (fresh : Nat)
    (hids : ∀ (m : String) (r : ChatResponse),
        ClientEvent.send m (Except.ok r) ∈ events → r.conversation_id ≠ "") :
    (runClient fresh initialChatState events).2 = specSentIds none events ∧
    ∀ st : ChatState, (clearChat st).conversationId = none := by
  refine ⟨?_, fun st => rfl⟩
  exact runClient_sentIds events fresh initialChatState
    (by simp [initialChatState]) hids

/-- Claim C10 witness: a concrete session — successful send, failed send,
clear, successful send — whose requests carry `none`, then the first
response's id, then `none` again after the clear. -/
theorem C10_witness :
    (runClient 0 initialChatState
        [ClientEvent.send "a" (Except.ok { response := "r1", conversation_id := "c1" }),
         ClientEvent.send "b" (Except.error "net down"),
         ClientEvent.clear,
         ClientEvent.send "c" (Except.ok { response := "r2", conversation_id := "c2" })]).2 =
      [none, some "c1", none] ∧
    (clearChat initialChatState).conversationId = none := by
  have h := C10_conversation_id_discipline
    [ClientEvent.send "a" (Except.ok { response := "r1", conversation_id := "c1" }),
     ClientEvent.send "b" (Except.error "net down"),
     ClientEvent.clear,
     ClientEvent.send "c" (Except.ok { response := "r2", conversation_id := "c2" })] 0
    (by
      intro m r hm
      simp only [List.mem_cons, List.not_mem_nil, or_false] at hm
      rcases hm with h | h | h | h
      · rw [ClientEvent.send.injEq] at h
        obtain ⟨_, h2⟩ := h
        rw [Except.ok.injEq] at h2
        subst h2
        decide
      · rw [ClientEvent.send.injEq] at h
        exact absurd h.2 (by intro h3; exact Except.noConfusion h3)
      · exact ClientEvent.noConfusion h
      · rw [ClientEvent.send.injEq] at h
        obtain ⟨_, h2⟩ := h
        rw [Except.ok.injEq] at h2
        subst h2
        decide)
  exact ⟨h.1, h.2 initialChatState⟩
